import Mathlib

/-!
Shallow embedding of the apollo Reddit scraper (src/apollo/reddit.py,
src/apollo/output.py, src/apollo/models.py) and proofs about it.

The Platform Client (praw) is modelled as a record of functions supplied by
the environment.  Timestamps (`created_utc`, the wall clock) are modelled as
integers counting seconds.  Python exceptions raised by the platform library
are modelled by the opaque-payload type `PyErr`; exceptions raised by the
scraper itself are the constructors of `ScrapeError`.  Functions that the
Python code writes as statements with `raise` are embedded as `Except`-valued
functions.  The `*_traced` variants additionally return the number of
search / listing requests issued to the Platform Client, so that statements of
the form "no search request was issued" can be expressed.
-/

deriving instance DecidableEq for Except

namespace Apollo

/-- Payload of an exception raised by the platform library or transport layer
(`requests.exceptions.RequestException`, prawcore errors, ...).  The code
never inspects the payload, so it is an opaque numeric tag. -/
structure PyErr where
  code : Nat
deriving DecidableEq, Repr

/-- One node of the flattened comment tree returned by
`submission.comments.list()`: either a genuine `praw.models.Comment`
(author already rendered to a string, as the source does with `f"{com.author}"`)
or a non-comment placeholder node such as `praw.models.MoreComments`
("load more" marker). -/
inductive CommentNode
  | comment (author : String) (score : Int) (body : String)
  | more
deriving DecidableEq, Repr

/-- Test used by the source's `isinstance(com, praw.models.Comment)` check. -/
def CommentNode.isComment : CommentNode → Bool
  | .comment _ _ _ => true
  | .more => false

/-- Comment record produced by `fetch_comments`
(the dict `{"score": ..., "author": ..., "body": ...}` of the source;
field names follow `models.Comment`). -/
structure Comment where
  author : String
  score : Int
  body : String
deriving DecidableEq, Repr

/-- Raw submission as exposed by the Platform Client.  `comments` is the
flattened list the client returns for this submission once the scraper has set
`comment_sort = "confidence"` and `comment_limit = 10` on it; those two
attributes are request hints interpreted by the client, so they are absorbed
into the tree the client hands back. -/
structure Submission where
  id : String
  author : String
  score : Int
  title : String
  selftext : String
  permalink : String
  num_comments : Int
  created_utc : Int
  comments : List CommentNode
deriving DecidableEq, Repr

/-- Post record built by the scraper (class `Post` of the source). -/
structure Post where
  post_id : String
  author : String
  score : Int
  title : String
  body : String
  url : String
  num_comments : Int
  top_comments : List Comment
deriving DecidableEq, Repr

/-- Value appended to `post_data`: the source appends `post.__dict__` (a plain
Python dict) when `output == "json"` and the `Post` object itself otherwise.
Both carry the same fields, but attribute access behaves differently on them,
which matters for `comments_from_half_year`. -/
inductive PostValue
  | obj (p : Post)
  | dict (p : Post)
deriving DecidableEq, Repr

/-- Underlying record of a `PostValue`, regardless of its Python
representation. -/
def PostValue.post : PostValue → Post
  | .obj p => p
  | .dict p => p

/-- Errors raised by the scraper layer itself.  `invalidSubreddit` and
`queryError` are the two `ValueError`s raised explicitly by the source
("Invalid subreddit: ..." and "An error occurred: ...");  `transport e` is a
platform/transport exception propagating uncaught through scraper code;
`attributeError` is Python's `AttributeError` from attribute access on a
dict. -/
inductive ScrapeError
  | invalidSubreddit
  | queryError
  | transport (e : PyErr)
  | attributeError
deriving DecidableEq, Repr

/-- The Platform Client boundary (a configured `praw.Reddit` instance).
`probe name` models reading `client.subreddit(name).subreddit_type` (returns
the property value or raises).  `search name query sort time_filter` models
`client.subreddit(name).search(...)`: the call itself may raise, and on
success it yields a lazily-paginated sequence whose elements are produced one
by one during iteration, each production either yielding a submission or
raising a transport error — hence a list of `Except`.  `top name` models
`client.subreddit(name).top(time_filter="year")`. -/
structure Client where
  probe : String → Except PyErr String
  search : String → String → String → String → Except PyErr (List (Except PyErr Submission))
  top : String → List Submission

/-- Embedding of `RedditScraper.fetch_comments`: keeps exactly the genuine
comment nodes, in order, as `{score, author, body}` records. -/
def fetch_comments (comments : List CommentNode) : List Comment :=
  comments.filterMap fun com =>
    match com with
    | .comment a s b => some { author := a, score := s, body := b }
    | .more => none

/-- Embedding of `RedditScraper.validate_subreddit`: tries the property read
and swallows every exception into `false`. -/
def validate_subreddit (c : Client) (subreddit_name : String) : Bool :=
  match c.probe subreddit_name with
  | .ok _ => true
  | .error _ => false

/-- Post construction performed inside the loops of `search_for_keyword` and
`posts_from_half_year` (both build the same `Post(...)` literal). -/
def mkPost (submission : Submission) : Post :=
  { post_id := submission.id
    author := submission.author
    score := submission.score
    title := submission.title
    body := submission.selftext
    url := "https://reddit.com" ++ submission.permalink
    num_comments := submission.num_comments
    top_comments := fetch_comments submission.comments }

/-- Embedding of `post_data.append(post.__dict__ if output == "json" else post)`. -/
def mkPostValue (output : String) (p : Post) : PostValue :=
  if output == "json" then .dict p else .obj p

/-- Consumption of the lazily-paginated search result sequence by the
`for submission in search_results` loop of `search_for_keyword`.  The loop sits
outside the `try` block, so a transport error raised while an element is being
produced propagates raw (constructor `transport`), and the partially built
`post_data` is discarded. -/
def consume_search (output : String) : List (Except PyErr Submission) → Except ScrapeError (List PostValue)
  | [] => .ok []
  | Except.error e :: _ => .error (.transport e)
  | Except.ok sub :: rest =>
    match consume_search output rest with
    | .error e => .error e
    | .ok ps => .ok (mkPostValue output (mkPost sub) :: ps)

/-- Embedding of `RedditScraper.search_for_keyword`, paired with the number of
search requests issued to the Platform Client (0 or 1): validation first, then
the search call whose own exception is caught and mapped to `queryError`, then
the consuming loop. -/
def search_for_keyword_traced (c : Client)
    (subreddit_name search_query sorting interval output : String) :
    Except ScrapeError (List PostValue) × Nat :=
  if validate_subreddit c subreddit_name then
    match c.search subreddit_name search_query sorting interval with
    | .error _ => (.error .queryError, 1)
    | .ok results => (consume_search output results, 1)
  else (.error .invalidSubreddit, 0)

/-- Value returned (or error raised) by `RedditScraper.search_for_keyword`. -/
def search_for_keyword (c : Client)
    (subreddit_name search_query sorting interval output : String) :
    Except ScrapeError (List PostValue) :=
  (search_for_keyword_traced c subreddit_name search_query sorting interval output).1

/-- The `for submission in top_posts` loop of `posts_from_half_year`: keeps a
submission exactly when `submission.created_utc > current_time - 15720000`. -/
def half_year_loop (current_time : Int) (output : String) : List Submission → List PostValue
  | [] => []
  | submission :: rest =>
    if submission.created_utc > current_time - 15720000 then
      mkPostValue output (mkPost submission) :: half_year_loop current_time output rest
    else half_year_loop current_time output rest

/-- Embedding of `RedditScraper.posts_from_half_year`, paired with the number
of top-listing requests issued to the Platform Client (0 or 1).
`current_time` is the wall-clock timestamp taken at call time
(`datetime.datetime.now(datetime.timezone.utc).timestamp()`). -/
def posts_from_half_year_traced (c : Client) (current_time : Int)
    (subreddit_name output : String) :
    Except ScrapeError (List PostValue) × Nat :=
  if validate_subreddit c subreddit_name then
    (.ok (half_year_loop current_time output (c.top (subreddit_name.replace "r/" ""))), 1)
  else (.error .invalidSubreddit, 0)

/-- Value returned (or error raised) by `RedditScraper.posts_from_half_year`. -/
def posts_from_half_year (c : Client) (current_time : Int)
    (subreddit_name output : String) : Except ScrapeError (List PostValue) :=
  (posts_from_half_year_traced c current_time subreddit_name output).1

/-- Python attribute access `post.top_comments`: succeeds on a `Post` object,
raises `AttributeError` on a plain dict (dicts are subscripted, not
attribute-accessed). -/
def PostValue.attr_top_comments : PostValue → Except ScrapeError (List Comment)
  | .obj p => .ok p.top_comments
  | .dict _ => .error .attributeError

/-- The list comprehension `[post.top_comments for post in top_posts]` of
`comments_from_half_year`: evaluates the attribute access element by element,
propagating the first failure. -/
def extract_top_comments : List PostValue → Except ScrapeError (List (List Comment))
  | [] => .ok []
  | v :: rest =>
    match v.attr_top_comments with
    | .error e => .error e
    | .ok cs =>
      match extract_top_comments rest with
      | .error e => .error e
      | .ok rs => .ok (cs :: rs)

set_option linter.unusedVariables false in
/-- Embedding of `RedditScraper.comments_from_half_year`, paired with the
number of top-listing requests issued.  The source calls
`self.posts_from_half_year(subreddit_name)` without forwarding `output`, so the
inner call runs with its default `output = "json"`; the `output` parameter of
this method is accepted but never used, mirroring the source. -/
def comments_from_half_year_traced (c : Client) (current_time : Int)
    (subreddit_name output : String) :
    Except ScrapeError (List (List Comment)) × Nat :=
  match posts_from_half_year_traced c current_time subreddit_name "json" with
  | (.error e, k) => (.error e, k)
  | (.ok posts, k) => (extract_top_comments posts, k)

/-- Value returned (or error raised) by `RedditScraper.comments_from_half_year`. -/
def comments_from_half_year (c : Client) (current_time : Int)
    (subreddit_name output : String) : Except ScrapeError (List (List Comment)) :=
  (comments_from_half_year_traced c current_time subreddit_name output).1

/-- Errors raised by the output writer: the `ValueError("Invalid output type: ...")`
of `OutputManager.store_output`. -/
inductive OutputError
  | unsupportedFormat
deriving DecidableEq, Repr

/-- Observable effect of one `store_output` call: the path of the file opened
for writing (`open(file_path, "w")` creates/truncates it), the content written
into it (`none` means the file was left empty), and the normal or exceptional
outcome. -/
structure StoreResult where
  path : String
  written : Option String
  result : Except OutputError Unit
deriving DecidableEq, Repr

/-- Embedding of Python's `str.lower()` on the strings the code handles. -/
def pyLower (s : String) : String :=
  ⟨s.data.map Char.toLower⟩

/-- Embedding of `OutputManager.store_output` (identical to
`_OutputManager.store_output` in reddit.py).  Serialization is abstracted:
`json_dump` stands for the text `json.dump(result, file)` would write and
`text_dump` for the text `file.writelines(f"{result}")` would write.
`file_id` is the random 8-character identifier drawn from `uuid.uuid4()`.
The file is opened (created) before the format is dispatched, so the
unsupported-format error is raised with the empty file already on disk. -/
def store_output (json_dump text_dump : String) (output_type file_id : String) : StoreResult :=
  let t := pyLower output_type
  let file_ext := if t == "json" then "json" else "txt"
  let file_path := "output/" ++ file_id ++ "." ++ file_ext
  if t == "json" then
    { path := file_path, written := some json_dump, result := .ok () }
  else if t == "dataclass" then
    { path := file_path, written := some text_dump, result := .ok () }
  else
    { path := file_path, written := none, result := .error .unsupportedFormat }

/-- Decidable bound on the client-returned comment trees of a search result
stream: every successfully produced submission carries at most `limit`
genuine comment nodes. -/
def stream_comment_bound (limit : Nat) (stream : List (Except PyErr Submission)) : Bool :=
  stream.all fun item =>
    match item with
    | .ok sub => decide (sub.comments.countP CommentNode.isComment ≤ limit)
    | .error _ => true

/-- Decidable bound on the client-returned comment trees of a top-of-year
listing: every submission carries at most `limit` genuine comment nodes. -/
def listing_comment_bound (limit : Nat) (listing : List Submission) : Bool :=
  listing.all fun sub => decide (sub.comments.countP CommentNode.isComment ≤ limit)

/-! Concrete stub clients and submissions used by witnesses and
counterexamples.  Every stub function ignores its string arguments, so stub
behavior does not depend on name handling. -/

/-- Stub client whose validation probe fails (private, banned, nonexistent or
network error are all modelled by the probe raising). -/
def probeFailClient : Client :=
  { probe := fun _ => .error ⟨4⟩
    search := fun _ _ _ _ => .ok []
    top := fun _ => [] }

/-- Second stub client with a failing probe, used independently of
`probeFailClient`. -/
def probeFailClient2 : Client :=
  { probe := fun _ => .error ⟨5⟩
    search := fun _ _ _ _ => .ok []
    top := fun _ => [] }

/-- Submission created exactly at the half-year boundary
(`current_time - 15720000` for `current_time = 20000000`). -/
def boundarySub : Submission :=
  { id := "b1", author := "u1", score := 1, title := "t1", selftext := "s1",
    permalink := "/p1", num_comments := 0, created_utc := 4280000, comments := [] }

/-- Submission created one second inside the half-year boundary. -/
def insideSub : Submission :=
  { id := "b2", author := "u2", score := 2, title := "t2", selftext := "s2",
    permalink := "/p2", num_comments := 0, created_utc := 4280001, comments := [] }

/-- Stub client whose top-of-year listing holds one boundary submission and
one submission one second inside the window. -/
def windowClient : Client :=
  { probe := fun _ => .ok "public"
    search := fun _ _ _ _ => .ok []
    top := fun _ => [boundarySub, insideSub] }

/-- Stub client whose search call itself raises a transport error. -/
def searchRaiseClient : Client :=
  { probe := fun _ => .ok "public"
    search := fun _ _ _ _ => .error ⟨3⟩
    top := fun _ => [] }

/-- Stub client whose search call succeeds but whose lazily-paginated result
sequence raises a transport error when its first element is produced. -/
def streamRaiseClient : Client :=
  { probe := fun _ => .ok "public"
    search := fun _ _ _ _ => .ok [Except.error ⟨7⟩]
    top := fun _ => [] }

/-- Submission whose client-returned comment tree holds 11 genuine comment
nodes (praw's `comments.list()` flattens replies, so the tree can exceed the
`comment_limit` hint). -/
def bigTreeSub : Submission :=
  { id := "p4", author := "u4", score := 2, title := "t4", selftext := "s4",
    permalink := "/p4", num_comments := 11, created_utc := 0,
    comments := List.replicate 11 (CommentNode.comment "a" 1 "m") }

/-- Stub client whose search and top-of-year listing both yield the one
submission with an 11-comment tree. -/
def bigTreeClient : Client :=
  { probe := fun _ => .ok "public"
    search := fun _ _ _ _ => .ok [Except.ok bigTreeSub]
    top := fun _ => [bigTreeSub] }

/-- Submission with a small comment tree (two genuine comments and one
placeholder). -/
def smallTreeSub : Submission :=
  { id := "p5", author := "u5", score := 1, title := "t5", selftext := "s5",
    permalink := "/p5", num_comments := 2, created_utc := 0,
    comments := [CommentNode.comment "x" 4 "m1", CommentNode.more,
      CommentNode.comment "y" 2 "m2"] }

/-- Stub client whose search and top-of-year listing both yield the one
submission with a small comment tree. -/
def smallTreeClient : Client :=
  { probe := fun _ => .ok "public"
    search := fun _ _ _ _ => .ok [Except.ok smallTreeSub]
    top := fun _ => [smallTreeSub] }

/-- Submission created well inside the half-year window for
`current_time = 1000000000`. -/
def recentSub : Submission :=
  { id := "p6", author := "u6", score := 9, title := "t6", selftext := "s6",
    permalink := "/p6", num_comments := 1, created_utc := 999999999,
    comments := [CommentNode.comment "z" 1 "m"] }

/-- Stub client whose top-of-year listing holds one recent submission. -/
def recentClient : Client :=
  { probe := fun _ => .ok "public"
    search := fun _ _ _ _ => .ok []
    top := fun _ => [recentSub] }

/-! Helper lemmas shared by the claim theorems. -/

theorem half_year_loop_eq_filter_map (current_time : Int) (output : String)
    (listing : List Submission) :
    half_year_loop current_time output listing =
      (listing.filter fun s => decide (s.created_utc > current_time - 15720000)).map
        (fun s => mkPostValue output (mkPost s)) := by
  induction listing with
  | nil => rfl
  | cons s rest ih =>
    by_cases h : s.created_utc > current_time - 15720000
    · simp [half_year_loop, List.filter_cons, h, ih]
    · simp [half_year_loop, List.filter_cons, h, ih]

theorem length_fetch_comments (ns : List CommentNode) :
    (fetch_comments ns).length = ns.countP CommentNode.isComment := by
  induction ns with
  | nil => rfl
  | cons n rest ih =>
    cases n <;>
      simp [fetch_comments, List.filterMap_cons, List.countP_cons, CommentNode.isComment] at * <;>
      omega

theorem mkPostValue_post (output : String) (p : Post) : (mkPostValue output p).post = p := by
  simp only [mkPostValue]
  split <;> rfl

theorem consume_search_ok_mem (output : String) :
    ∀ (stream : List (Except PyErr Submission)) (out : List PostValue),
      consume_search output stream = Except.ok out →
      ∀ v ∈ out, ∃ sub : Submission, Except.ok sub ∈ stream ∧ v = mkPostValue output (mkPost sub) := by
  intro stream
  induction stream with
  | nil =>
    intro out h v hv
    simp only [consume_search, Except.ok.injEq] at h
    subst h
    simp at hv
  | cons item rest ih =>
    intro out h v hv
    cases item with
    | error e => simp [consume_search] at h
    | ok sub =>
      unfold consume_search at h
      cases hrec : consume_search output rest with
      | error e =>
        simp only [hrec] at h
        exact Except.noConfusion h
      | ok ps =>
        simp only [hrec, Except.ok.injEq] at h
        subst h
        rcases List.mem_cons.mp hv with hv | hv
        · exact ⟨sub, List.mem_cons_self _ _, hv⟩
        · obtain ⟨sub2, hm, he⟩ := ih ps hrec v hv
          exact ⟨sub2, List.mem_cons_of_mem _ hm, he⟩

theorem consume_search_first_error (output : String) :
    ∀ (pre : List (Except PyErr Submission)) (e : PyErr) (rest : List (Except PyErr Submission)),
      pre.all Except.isOk = true →
      consume_search output (pre ++ Except.error e :: rest) =
        Except.error (ScrapeError.transport e) := by
  intro pre
  induction pre with
  | nil => intro e rest _; rfl
  | cons item pre ih =>
    intro e rest hall
    cases item with
    | error e2 => simp [List.all_cons, Except.isOk, Except.toBool] at hall
    | ok sub =>
      simp only [List.all_cons, Bool.and_eq_true] at hall
      simp [consume_search, ih e rest hall.2]

/-! Claim theorems. -/

/-- C6: `validateAccess` (source name `validate_subreddit`) is a total Boolean
function of the probe outcome: it returns `true` exactly when the Platform
Client's property read succeeds and `false` on any failure of that read, never
propagating the underlying exception. -/
theorem c6_theorem (c : Client) (subreddit_name : String) :
    validate_subreddit c subreddit_name = (c.probe subreddit_name).isOk := by
  cases h : c.probe subreddit_name <;>
    simp [validate_subreddit, Except.isOk, Except.toBool, h]

/-- C8: when shaping a comment list, the scraper drops every placeholder node,
keeps the genuine comments in their original order with their score, author
and body fields, and on the tree
`[Comment(a,5,"x"), Placeholder, Comment(b,3,"y")]` produces
`[Comment(a,5,"x"), Comment(b,3,"y")]`. -/
theorem c8_theorem :
    (∀ pre post : List CommentNode,
      fetch_comments (pre ++ CommentNode.more :: post) = fetch_comments (pre ++ post))
    ∧ (∀ (pre post : List CommentNode) (a : String) (s : Int) (b : String),
      fetch_comments (pre ++ CommentNode.comment a s b :: post) =
        fetch_comments pre ++ { author := a, score := s, body := b } :: fetch_comments post)
    ∧ fetch_comments
        [CommentNode.comment "a" 5 "x", CommentNode.more, CommentNode.comment "b" 3 "y"] =
      [{ author := "a", score := 5, body := "x" }, { author := "b", score := 3, body := "y" }] := by
  refine ⟨?_, ?_, rfl⟩
  · intro pre post
    simp [fetch_comments, List.filterMap_append, List.filterMap_cons]
  · intro pre post a s b
    simp [fetch_comments, List.filterMap_append, List.filterMap_cons]

/-- C5: whenever validation fails, `search_for_keyword` raises the
invalid-subreddit error and issues zero search requests to the Platform Client
(second component of the traced result). -/
theorem c5_theorem (c : Client)
    (subreddit_name search_query sorting interval output : String)
    (h : validate_subreddit c subreddit_name = false) :
    search_for_keyword_traced c subreddit_name search_query sorting interval output =
      (Except.error ScrapeError.invalidSubreddit, 0) := by
  unfold search_for_keyword_traced
  rw [h]
  rfl

/-- C5 witness: a stub client whose probe fails records zero search calls. -/
theorem c5_witness :
    validate_subreddit probeFailClient "privatesub" = false
    ∧ search_for_keyword_traced probeFailClient "privatesub" "kw" "hot" "day" "json" =
        (Except.error ScrapeError.invalidSubreddit, 0) :=
  ⟨rfl, c5_theorem probeFailClient "privatesub" "kw" "hot" "day" "json" rfl⟩

/-- C9: `posts_from_half_year` performs the same validation probe as
`search_for_keyword`: when validation fails it raises the invalid-subreddit
error having issued zero top-listing requests, and `comments_from_half_year`,
which calls it, does the same. -/
theorem c9_theorem (c : Client) (current_time : Int) (subreddit_name output : String)
    (h : validate_subreddit c subreddit_name = false) :
    posts_from_half_year_traced c current_time subreddit_name output =
      (Except.error ScrapeError.invalidSubreddit, 0)
    ∧ comments_from_half_year_traced c current_time subreddit_name output =
      (Except.error ScrapeError.invalidSubreddit, 0) := by
  have hp : ∀ o : String,
      posts_from_half_year_traced c current_time subreddit_name o =
        (Except.error ScrapeError.invalidSubreddit, 0) := by
    intro o
    unfold posts_from_half_year_traced
    rw [h]
    rfl
  refine ⟨hp output, ?_⟩
  unfold comments_from_half_year_traced
  rw [hp "json"]

/-- C9 witness: a stub client whose probe fails makes both half-year
operations raise the invalid-subreddit error with zero listing requests. -/
theorem c9_witness :
    validate_subreddit probeFailClient2 "gonesub" = false
    ∧ posts_from_half_year_traced probeFailClient2 1000000 "gonesub" "json" =
        (Except.error ScrapeError.invalidSubreddit, 0)
    ∧ comments_from_half_year_traced probeFailClient2 1000000 "gonesub" "json" =
        (Except.error ScrapeError.invalidSubreddit, 0) :=
  ⟨rfl, (c9_theorem probeFailClient2 1000000 "gonesub" "json" rfl).1,
    (c9_theorem probeFailClient2 1000000 "gonesub" "json" rfl).2⟩

/-- C10: for every format value outside the recognized set, `store_output`
opens an output file with extension `.txt` and then raises the
unsupported-format error, leaving the file empty (`written = none`). -/
theorem c10_theorem (json_dump text_dump output_type file_id : String)
    (h1 : pyLower output_type ≠ "json") (h2 : pyLower output_type ≠ "dataclass") :
    store_output json_dump text_dump output_type file_id =
      { path := "output/" ++ file_id ++ "." ++ "txt", written := none,
        result := Except.error OutputError.unsupportedFormat } := by
  have b1 : (pyLower output_type == "json") = false := by
    simp [h1]
  have b2 : (pyLower output_type == "dataclass") = false := by
    simp [h2]
  simp [store_output, b1, b2]

/-- C10 witness: storing with format "text" leaves an empty `.txt` file
behind and fails with the unsupported-format error. -/
theorem c10_witness :
    store_output "jdump" "tdump" "text" "deadbeef" =
      { path := "output/deadbeef.txt", written := none,
        result := Except.error OutputError.unsupportedFormat } :=
  ( c10_theorem "jdump" "tdump" "text" "deadbeef" (by decide) (by decide)).trans (by decide)

/-- C2: a submission of the consumed top-of-year listing appears in the
result of `posts_from_half_year` exactly when its creation timestamp is
strictly inside the most recent 15,720,000 seconds: the result is the shaped
image of the listing filtered by `created_utc > current_time - 15720000`, a
submission at exactly `current_time - 15720000` is excluded, and one at
`current_time - 15720000 + 1` is included. -/
theorem c2_theorem (c : Client) (current_time : Int) (subreddit_name output : String)
    (h : validate_subreddit c subreddit_name = true) :
    posts_from_half_year c current_time subreddit_name output =
      Except.ok (((c.top (subreddit_name.replace "r/" "")).filter
          (fun s => decide (s.created_utc > current_time - 15720000))).map
        (fun s => mkPostValue output (mkPost s)))
    ∧ (∀ s : Submission,
        s ∈ (c.top (subreddit_name.replace "r/" "")).filter
            (fun s => decide (s.created_utc > current_time - 15720000))
          ↔ s ∈ c.top (subreddit_name.replace "r/" "")
            ∧ s.created_utc > current_time - 15720000)
    ∧ (∀ s : Submission, s.created_utc = current_time - 15720000 →
        s ∉ (c.top (subreddit_name.replace "r/" "")).filter
            (fun s => decide (s.created_utc > current_time - 15720000)))
    ∧ (∀ s : Submission, s ∈ c.top (subreddit_name.replace "r/" "") →
        s.created_utc = current_time - 15720000 + 1 →
        s ∈ (c.top (subreddit_name.replace "r/" "")).filter
            (fun s => decide (s.created_utc > current_time - 15720000))) := by
  have hmem : ∀ s : Submission,
      s ∈ (c.top (subreddit_name.replace "r/" "")).filter
          (fun s => decide (s.created_utc > current_time - 15720000))
        ↔ s ∈ c.top (subreddit_name.replace "r/" "")
          ∧ s.created_utc > current_time - 15720000 := by
    intro s
    simp [List.mem_filter]
  refine ⟨?_, hmem, ?_, ?_⟩
  · unfold posts_from_half_year posts_from_half_year_traced
    rw [h]
    simp [half_year_loop_eq_filter_map]
  · intro s hcreated hmemf
    have := (hmem s).mp hmemf
    omega
  · intro s hs hcreated
    refine (hmem s).mpr ⟨hs, ?_⟩
    omega

/-- C2 witness: with the wall clock at 20000000, a listing holding one
submission at exactly the boundary 4280000 and one at 4280001 yields exactly
the latter. -/
theorem c2_witness :
    validate_subreddit windowClient "testsub" = true
    ∧ posts_from_half_year windowClient 20000000 "testsub" "json" =
        Except.ok [PostValue.dict (mkPost insideSub)] :=
  ⟨rfl, ((c2_theorem windowClient 20000000 "testsub" "json" rfl).1).trans (by decide)⟩

/-- C3 (code bug): `comments_from_half_year` obtains its posts from
`posts_from_half_year` called without forwarding `output`, so the inner call
returns plain dicts (`post.__dict__`), and the subsequent attribute access
`post.top_comments` raises `AttributeError` as soon as at least one post lies
in the window — for either value of the caller's `output` argument — instead
of returning the per-post `top_comments` sequences. -/
theorem c3_theorem :
    posts_from_half_year recentClient 1000000000 "sub" "json" =
      Except.ok [PostValue.dict (mkPost recentSub)]
    ∧ comments_from_half_year recentClient 1000000000 "sub" "dataclass" =
        Except.error ScrapeError.attributeError
    ∧ comments_from_half_year recentClient 1000000000 "sub" "json" =
        Except.error ScrapeError.attributeError := by decide

/-- C4 counterexample: a transport error raised while the lazily-paginated
result sequence is being consumed propagates raw and is not the mapped
query error, refuting the claim for consumption-time failures. -/
theorem c4_counterexample :
    search_for_keyword streamRaiseClient "sub" "kw" "hot" "day" "json" =
      Except.error (ScrapeError.transport ⟨7⟩)
    ∧ ScrapeError.transport ⟨7⟩ ≠ ScrapeError.queryError := by decide

/-- C4 (amended): after successful validation, a transport error raised by
the search call itself is mapped to the query error, but a transport error
raised while the lazily-paginated result sequence is being consumed (first
erroring element, all earlier elements produced normally) propagates raw,
unmapped. -/
theorem c4_theorem (c : Client)
    (subreddit_name search_query sorting interval output : String)
    (h : validate_subreddit c subreddit_name = true) :
    (∀ e : PyErr,
      c.search subreddit_name search_query sorting interval = Except.error e →
      search_for_keyword c subreddit_name search_query sorting interval output =
        Except.error ScrapeError.queryError)
    ∧ (∀ (pre : List (Except PyErr Submission)) (e : PyErr)
        (rest : List (Except PyErr Submission)),
      c.search subreddit_name search_query sorting interval =
        Except.ok (pre ++ Except.error e :: rest) →
      pre.all Except.isOk = true →
      search_for_keyword c subreddit_name search_query sorting interval output =
        Except.error (ScrapeError.transport e)) := by
  constructor
  · intro e he
    simp [search_for_keyword, search_for_keyword_traced, h, he]
  · intro pre e rest hs hall
    simp [search_for_keyword, search_for_keyword_traced, h, hs,
      consume_search_first_error output pre e rest hall]

/-- C4 witness: a stub client whose search call raises gives the mapped
query error. -/
theorem c4_witness :
    validate_subreddit searchRaiseClient "sub" = true
    ∧ search_for_keyword searchRaiseClient "sub" "kw" "hot" "day" "json" =
        Except.error ScrapeError.queryError :=
  ⟨rfl, (c4_theorem searchRaiseClient "sub" "kw" "hot" "day" "json" rfl).1 ⟨3⟩ rfl⟩

/-- C1 counterexample: the scraper applies no truncation of its own, so a
client-returned tree with 11 genuine comment nodes yields a produced Post
with 11 `top_comments`, exceeding the configured limit of 10 — both through
`search_for_keyword` and through `posts_from_half_year`. -/
theorem c1_counterexample :
    search_for_keyword bigTreeClient "sub" "kw" "hot" "day" "dataclass" =
      Except.ok [PostValue.obj (mkPost bigTreeSub)]
    ∧ posts_from_half_year bigTreeClient 0 "sub" "dataclass" =
        Except.ok [PostValue.obj (mkPost bigTreeSub)]
    ∧ (mkPost bigTreeSub).top_comments.length = 11
    ∧ ¬ (mkPost bigTreeSub).top_comments.length ≤ 10 := by decide

/-- C1 (amended): for both producing operations — `search_for_keyword` and
`posts_from_half_year` — the length of every produced Post's `top_comments`
is bounded by 10 whenever every submission of the client-returned search
stream (respectively top-of-year listing) carries at most 10 genuine comment
nodes; the scraper itself only filters placeholders and relies on the client
honoring the `comment_limit` hint. -/
theorem c1_theorem (c : Client)
    (subreddit_name search_query sorting interval output : String)
    (current_time : Int) :
    (∀ (stream : List (Except PyErr Submission)) (out : List PostValue),
      c.search subreddit_name search_query sorting interval = Except.ok stream →
      stream_comment_bound 10 stream = true →
      search_for_keyword c subreddit_name search_query sorting interval output =
        Except.ok out →
      ∀ v ∈ out, (PostValue.post v).top_comments.length ≤ 10)
    ∧ (∀ out : List PostValue,
      listing_comment_bound 10 (c.top (subreddit_name.replace "r/" "")) = true →
      posts_from_half_year c current_time subreddit_name output = Except.ok out →
      ∀ v ∈ out, (PostValue.post v).top_comments.length ≤ 10) := by
  constructor
  · intro stream out h1 h2 h3 v hv
    by_cases hval : validate_subreddit c subreddit_name = true
    case neg =>
      rw [Bool.not_eq_true] at hval
      simp [search_for_keyword, search_for_keyword_traced, hval] at h3
    case pos =>
      simp only [search_for_keyword, search_for_keyword_traced, hval, h1, if_true] at h3
      obtain ⟨sub, hmem, hveq⟩ := consume_search_ok_mem output stream out h3 v hv
      subst hveq
      rw [mkPostValue_post]
      show (fetch_comments sub.comments).length ≤ 10
      rw [length_fetch_comments]
      unfold stream_comment_bound at h2
      rw [List.all_eq_true] at h2
      have hb := h2 _ hmem
      simpa using hb
  · intro out h2 h3 v hv
    by_cases hval : validate_subreddit c subreddit_name = true
    case neg =>
      rw [Bool.not_eq_true] at hval
      simp [posts_from_half_year, posts_from_half_year_traced, hval] at h3
    case pos =>
      simp only [posts_from_half_year, posts_from_half_year_traced, hval, if_true,
        Except.ok.injEq] at h3
      subst h3
      rw [half_year_loop_eq_filter_map] at hv
      obtain ⟨sub, hsub, hveq⟩ := List.mem_map.mp hv
      have hsubl := (List.mem_filter.mp hsub).1
      rw [← hveq, mkPostValue_post]
      show (fetch_comments sub.comments).length ≤ 10
      rw [length_fetch_comments]
      unfold listing_comment_bound at h2
      rw [List.all_eq_true] at h2
      have hb := h2 _ hsubl
      simpa using hb

/-- C1 witness: under a client honoring the limit hint (one submission, two
genuine comments plus a placeholder, offered both as the search stream and as
the top-of-year listing), the Post produced by each operation respects the
bound. -/
theorem c1_witness :
    stream_comment_bound 10 [Except.ok smallTreeSub] = true
    ∧ listing_comment_bound 10 [smallTreeSub] = true
    ∧ (PostValue.post (PostValue.obj (mkPost smallTreeSub))).top_comments.length ≤ 10
    ∧ (PostValue.post (PostValue.dict (mkPost smallTreeSub))).top_comments.length ≤ 10 :=
  ⟨by decide, by decide,
    (c1_theorem smallTreeClient "sub" "kw" "hot" "day" "obj" 0).1
      [Except.ok smallTreeSub] [PostValue.obj (mkPost smallTreeSub)] rfl
      (by decide) (by decide) (PostValue.obj (mkPost smallTreeSub)) (by decide),
    (c1_theorem smallTreeClient "sub" "kw" "hot" "day" "json" 0).2
      [PostValue.dict (mkPost smallTreeSub)] (by decide) (by decide)
      (PostValue.dict (mkPost smallTreeSub)) (by decide)⟩

/-- C7 counterexample: the format "text" is rejected with the
unsupported-format error, while "dataclass" is the accepted human-readable
format, refuting the claim that "text" succeeds and everything but
"json"/"text" fails. -/
theorem c7_counterexample :
    (store_output "jdump" "tdump" "text" "f2").result =
      Except.error OutputError.unsupportedFormat
    ∧ (store_output "jdump" "tdump" "dataclass" "f2").result = Except.ok () := by decide

/-- C7 (amended): `store_output` succeeds for the formats "json" (structured
serialization) and "dataclass" (human-readable dump), compared after
lowercasing, and fails with the unsupported-format error for every other
value. -/
theorem c7_theorem (json_dump text_dump output_type file_id : String) :
    (pyLower output_type = "json" →
      (store_output json_dump text_dump output_type file_id).result = Except.ok ())
    ∧ (pyLower output_type = "dataclass" →
      (store_output json_dump text_dump output_type file_id).result = Except.ok ())
    ∧ (pyLower output_type ≠ "json" → pyLower output_type ≠ "dataclass" →
      (store_output json_dump text_dump output_type file_id).result =
        Except.error OutputError.unsupportedFormat) := by
  refine ⟨?_, ?_, ?_⟩
  · intro h
    have b1 : (("json" : String) == "json") = true := by decide
    simp [store_output, h, b1]
  · intro h
    have b1 : (("dataclass" : String) == "json") = false := by decide
    have b2 : (("dataclass" : String) == "dataclass") = true := by decide
    simp [store_output, h, b1, b2]
  · intro h1 h2
    have b1 : (pyLower output_type == "json") = false := by simp [h1]
    have b2 : (pyLower output_type == "dataclass") = false := by simp [h2]
    simp [store_output, b1, b2]

/-- C7 witness: "JSON" and "DataClass" are accepted case-insensitively, while
"xml" is rejected. -/
theorem c7_witness :
    (store_output "jdump" "tdump" "JSON" "f1").result = Except.ok ()
    ∧ (store_output "jdump" "tdump" "DataClass" "f1").result = Except.ok ()
    ∧ (store_output "jdump" "tdump" "xml" "f1").result =
        Except.error OutputError.unsupportedFormat :=
  ⟨( c7_theorem "jdump" "tdump" "JSON" "f1").1 (by decide),
    ( c7_theorem "jdump" "tdump" "DataClass" "f1").2.1 (by decide),
    ( c7_theorem "jdump" "tdump" "xml" "f1").2.2 (by decide) (by decide)⟩

end Apollo
